import Mathlib

/-!
# avim GUI bootstrap: configuration lookup, credential validation, login flow, task hand-off

A shallow embedding of `src/gui/ini.h` (`avim::ini::get`) and `src/gui/app.cpp`
(`avimApp::on_post`, `load_key_and_cert`, `load_cfg`, `start_main`, `exec`).

Stateful C++ is rendered as explicit state passing over the record `avimApp`, which
carries the members of the class together with the filesystem the process sees and the
sequence of observable events of the run.  A call either returns or is left through an
exception (`Run`); the two boost::filesystem calls of `app.cpp`, `fs::exists` and
`fs::create_directories`, are the throwing overloads and can fail with a
`filesystem_error`, which nothing in `app.cpp` catches.  Collaborators whose code is not
part of the sources (the application directory, the `avim::ini` constructor, the login
dialog, the Qt main loop, `create_directories`) are fields of `Env` and every theorem
quantifies over them.
-/

namespace Avim

/-! ## Filesystem -/

/-- What a stat of a path can report: the path names a file or directory, no such file
exists (ENOENT, ENOTDIR), or the stat itself fails for another reason (EACCES,
ENAMETOOLONG, ELOOP, ...), described by `what`. -/
inductive stat_result where
  | found
  | not_found
  | failed (what : String)
deriving DecidableEq, Repr

/-- Filesystem state: the result of a stat of each path string. -/
structure FileSystem where
  stat : String → stat_result

/-- Result of a boost::filesystem call made without an `error_code` argument: a value, or
a thrown `filesystem_error` with its `what()` text. -/
inductive fs_result (α : Type) where
  | ok (value : α)
  | filesystem_error (what : String)
deriving DecidableEq, Repr

/-- Embedding of `fs::exists(fs::path(p))` (boost::filesystem, throwing overload).  A stat
of the empty path reports "no such file", so the empty path never exists; a stat that
fails for a reason other than "no such file" makes the call throw. -/
def fs_exists (fsys : FileSystem) (p : String) : fs_result Bool :=
  if p.isEmpty then .ok false
  else
    match fsys.stat p with
    | .found => .ok true
    | .not_found => .ok false
    | .failed what => .filesystem_error what

/-- Embedding of `fs::path::operator/=` (boost::filesystem, separator `/`): appending
an empty path changes nothing; otherwise a separator is inserted unless the left side
is empty or already ends in one, or the right side starts with one. -/
def path_append (p q : String) : String :=
  if q.isEmpty then p
  else if p.isEmpty || p.back == '/' || q.front == '/' then p ++ q
  else p ++ "/" ++ q

/-! ## src/gui/ini.h -/

/-- The exceptions derived from `boost::property_tree::ptree_error`, with their
`what()` text. -/
inductive ptree_error where
  | ptree_bad_path (what : String)
  | ptree_bad_data (what : String)

/-- Member `what()` of `ptree_error`. -/
def ptree_error.what : ptree_error → String
  | .ptree_bad_path w => w
  | .ptree_bad_data w => w

/-- The property tree `m_pt`, seen through path lookup: `node path` is the data string of
the node addressed by the dot-separated `path`, when such a node exists. -/
structure ptree where
  node : String → Option String

/-- What the template `ini::get<value_type>` needs of its type parameter:
`ctor` is `value_type()`, `translate` is the property-tree translator from the stored
string, and `of_what` is the implicit conversion applied by `return error.what();`
(from `const char*`). -/
class value_type (T : Type) where
  ctor : T
  translate : String → Option T
  of_what : String → T

/-- Instantiation `value_type = std::string`, the only one `app.cpp` uses: `std::string()`
is empty, the translator is the identity, and a `const char*` converts to the string
with the same text. -/
instance : value_type String where
  ctor := ""
  translate := fun s => some s
  of_what := fun s => s

/-- Embedding of `m_pt.get<value_type>(path)`: throws `ptree_bad_path` when no node has
that path and `ptree_bad_data` when the translator rejects the data. -/
def ptree.get {T : Type} [value_type T] (pt : ptree) (path : String) : Except ptree_error T :=
  match pt.node path with
  | none => .error (.ptree_bad_path ("No such node (" ++ path ++ ")"))
  | some data =>
    match value_type.translate data with
    | none => .error (.ptree_bad_data "conversion of data to the requested type failed")
    | some v => .ok v

/-- Members of `class avim::ini`. -/
structure ini where
  m_modified : Bool
  m_err_code : Int
  m_ini_file : String
  m_pt : ptree

/-- Embedding of `avim::ini::get<value_type>` (ini.h lines 30-47). -/
def ini.get {T : Type} [value_type T] (self : ini) (path : String) : T :=
  if self.m_err_code ≠ 0 then
    value_type.ctor
  else
    match (self.m_pt.get path : Except ptree_error T) with
    | .ok v => v
    | .error error => value_type.of_what error.what

/-! ## src/gui/app.cpp: state and collaborators -/

/-- The arguments an `avim_client` was constructed with, after the io_service: the key
argument and the certificate argument, in constructor order. -/
structure avim_client where
  key : String
  cert : String
deriving DecidableEq, Repr

/-- A constructed `login_dialog`, reduced to what `exec` asks of it: the value of
`QDialog::exec()` and the two chosen paths. -/
structure login_dialog where
  exec : Int
  get_key_path : String
  get_cert_path : String
deriving DecidableEq, Repr

/-- Value of `QDialog::Accepted`. -/
def QDialog_Accepted : Int := 1

/-- Observable events of a run, in program order. -/
inductive Event where
  | create_directories (dir : String)
  | ini_new (file : String)
  | load_key_and_cert (cur_key cur_cert : String)
  | cout (text : String)
  | qDebug (text : String)
  | avim_client_new (key cert : String)
  | login_dialog_new
  | login_dialog_exec
  | login_dialog_reset
  | MainWindow_new
  | MainWindow_show
  | QApplication_exec
deriving DecidableEq, Repr

/-- Collaborators of `avimApp` that are not defined in `app.cpp`. -/
structure Env where
  /-- Result of `get_app_dir()`. -/
  get_app_dir : String
  /-- Effect of `fs::create_directories(dir)` on the filesystem, or the
  `filesystem_error` it throws when the directory cannot be created. -/
  create_directories : FileSystem → String → fs_result FileSystem
  /-- Store built by `new avim::ini(file)` from the filesystem, and the filesystem the
  constructor leaves behind. -/
  ini_new : FileSystem → String → ini × FileSystem
  /-- Dialog built by `new login_dialog(cfg)`, with the outcome of the interaction; the
  filesystem is taken not to change while the dialog is open. -/
  login_dialog_new : ini → login_dialog
  /-- Return value of `QApplication::exec()`. -/
  QApplication_exec : Int

/-- Members of `avimApp` (`m_cfg`, `m_avim_client`, `m_login_dialog`, `m_mainwindow`; a null
pointer is `none`), with the filesystem of the process and the events so far. -/
structure avimApp where
  m_cfg : Option ini
  m_avim_client : Option avim_client
  m_login_dialog : Option login_dialog
  m_mainwindow : Bool
  fsys : FileSystem
  trace : List Event

/-- How a member function of `avimApp` ends: it returns `value`, or an exception with text
`what` leaves it; `self` is the application object at that point. -/
inductive Run (α : Type) where
  | returned (value : α) (self : avimApp)
  | thrown (what : String) (self : avimApp)

/-- The application object at the end of a call. -/
def Run.app {α : Type} : Run α → avimApp
  | .returned _ self => self
  | .thrown _ self => self

/-- The value a call returned, if it returned. -/
def Run.value? {α : Type} : Run α → Option α
  | .returned value _ => some value
  | .thrown _ _ => none

/-- A freshly constructed application object: every owning pointer is null and nothing has
happened yet. -/
def avimApp.fresh (fsys : FileSystem) : avimApp :=
  { m_cfg := none, m_avim_client := none, m_login_dialog := none, m_mainwindow := false,
    fsys := fsys, trace := [] }

/-- Append one event to the run. -/
def avimApp.record (self : avimApp) (e : Event) : avimApp :=
  { self with trace := self.trace ++ [e] }

/-- Embedding of `avimApp::load_key_and_cert` (app.cpp lines 33-64).  Both defaulting
branches assign to `cur_key`, and the client is built from `cur_key` twice, as in the
source.  The condition `!fs::exists(cur_key) || !fs::exists(cur_cert)` is evaluated left
to right with short circuit, and a `filesystem_error` thrown by either call leaves the
function. -/
def avimApp.load_key_and_cert (env : Env) (self : avimApp) (cur_key cur_cert : String) :
    Run Bool :=
  let self := self.record (.load_key_and_cert cur_key cur_cert)
  let cur_key := if cur_key.isEmpty then path_append env.get_app_dir "user.key" else cur_key
  let cur_key := if cur_cert.isEmpty then path_append env.get_app_dir "user.cert" else cur_key
  let either_missing : fs_result Bool :=
    match fs_exists self.fsys cur_key with
    | .filesystem_error what => .filesystem_error what
    | .ok false => .ok true
    | .ok true =>
      match fs_exists self.fsys cur_cert with
      | .filesystem_error what => .filesystem_error what
      | .ok found => .ok (!found)
  match either_missing with
  | .filesystem_error what => .thrown what self
  | .ok true =>
    let self := self.record (.cout (cur_key ++ "\n"))
    let self := self.record (.cout (cur_cert ++ "\n"))
    let self := self.record (.cout "omg, key and cert not exist")
    .returned false self
  | .ok false =>
    let self := self.record (.qDebug ("cert: " ++ cur_cert))
    let self := self.record (.qDebug ("key: " ++ cur_key))
    let self := self.record (.avim_client_new cur_key cur_key)
    .returned true { self with m_avim_client := some { key := cur_key, cert := cur_key } }

/-- The value `cur_key` holds when `load_key_and_cert` reaches its existence check
(app.cpp line 51), after both defaulting branches. -/
def resolved_key (env : Env) (cur_key cur_cert : String) : String :=
  if cur_cert.isEmpty then path_append env.get_app_dir "user.cert"
  else if cur_key.isEmpty then path_append env.get_app_dir "user.key"
  else cur_key

/-- Embedding of `avimApp::load_cfg` (app.cpp lines 115-123).  A `filesystem_error` thrown
by `fs::exists` or by `fs::create_directories` leaves the function before `m_cfg` is set. -/
def avimApp.load_cfg (env : Env) (self : avimApp) : Run Unit :=
  let appdatadir := env.get_app_dir
  match fs_exists self.fsys appdatadir with
  | .filesystem_error what => .thrown what self
  | .ok true =>
    let file := path_append appdatadir "config.ini"
    let built := env.ini_new self.fsys file
    .returned () { self.record (.ini_new file) with m_cfg := some built.1, fsys := built.2 }
  | .ok false =>
    let self := self.record (.create_directories appdatadir)
    match env.create_directories self.fsys appdatadir with
    | .filesystem_error what => .thrown what self
    | .ok created =>
      let self := { self with fsys := created }
      let file := path_append appdatadir "config.ini"
      let built := env.ini_new self.fsys file
      .returned () { self.record (.ini_new file) with m_cfg := some built.1, fsys := built.2 }

/-- Embedding of `avimApp::start_main` (app.cpp lines 125-131). -/
def avimApp.start_main (env : Env) (self : avimApp) : Run Int :=
  let self := { self.record .MainWindow_new with m_mainwindow := true }
  let self := self.record .MainWindow_show
  .returned env.QApplication_exec (self.record .QApplication_exec)

/-- The login-dialog block that `exec` contains twice (app.cpp lines 80-93 and 98-111):
build and run the dialog; on `Accepted` validate the chosen paths and either return 1 or
go to `start_main`; otherwise return 0. -/
def avimApp.exec_login (env : Env) (self : avimApp) (m_cfg : ini) : Run Int :=
  let dlg := env.login_dialog_new m_cfg
  let self := { self.record .login_dialog_new with m_login_dialog := some dlg }
  let self := self.record .login_dialog_exec
  if dlg.exec == QDialog_Accepted then
    match self.load_key_and_cert env dlg.get_key_path dlg.get_cert_path with
    | .thrown what self => .thrown what self
    | .returned false self => .returned 1 self
    | .returned true self =>
      let self := { self.record .login_dialog_reset with m_login_dialog := none }
      self.start_main env
  else
    .returned 0 self

/-- Embedding of `avimApp::exec` (app.cpp lines 66-113).  An exception leaving `load_cfg`
or `load_key_and_cert` leaves `exec` as well.  Dereferencing a null `m_cfg` has no
result (`none`); `load_cfg` sets it whenever it returns. -/
def avimApp.exec (env : Env) (self : avimApp) : Option (Run Int) :=
  match self.load_cfg env with
  | .thrown what self => some (.thrown what self)
  | .returned _ self =>
    match self.m_cfg with
    | none => none
    | some m_cfg =>
      let auto_login : String := m_cfg.get "global.auto_login"
      if auto_login == "true" then
        match self.load_key_and_cert env (m_cfg.get "global.key") (m_cfg.get "global.cert") with
        | .thrown what self => some (.thrown what self)
        | .returned true self => some (self.start_main env)
        | .returned false self => some (self.exec_login env m_cfg)
      else
        some (self.exec_login env m_cfg)

/-! ## src/gui/app.cpp: tasks delivered to the main thread -/

/-- How a call on the main thread ends: it returns, or it leaves through an exception
carrying `what`; either way `s` is the state reached. -/
inductive Outcome (σ : Type) where
  | returned (s : σ)
  | thrown (what : String) (s : σ)
deriving DecidableEq, Repr

/-- A `std::function<void()>`: a named closure whose body acts on the state `σ` owned by
the main thread. -/
structure Task (σ : Type) where
  name : String
  body : σ → Outcome σ

/-- The main thread: the closures invoked so far, in order, and the state they act on. -/
structure MainThread (σ : Type) where
  calls : List String
  ui : σ
deriving DecidableEq, Repr

/-- Embedding of `std::function<void()>::operator()`: one invocation of the closure. -/
def Task.call {σ : Type} (f : Task σ) (m : MainThread σ) : Outcome (MainThread σ) :=
  match f.body m.ui with
  | .returned u => .returned { calls := m.calls ++ [f.name], ui := u }
  | .thrown what u => .thrown what { calls := m.calls ++ [f.name], ui := u }

/-- Embedding of `avimApp::on_post` (app.cpp lines 8-11): the body is the single
statement `(qfunc_ptr)();`, with no handler around it. -/
def avimApp.on_post {σ : Type} (qfunc_ptr : Task σ) (m : MainThread σ) :
    Outcome (MainThread σ) :=
  qfunc_ptr.call m

/-! ## Concrete inputs -/

/-- A filesystem holding exactly the listed paths. -/
def FileSystem.of_list (paths : List String) : FileSystem :=
  { stat := fun p => if paths.contains p then .found else .not_found }

/-- A store read without error whose tree holds exactly the listed path/data pairs. -/
def ini.of_list (entries : List (String × String)) : ini :=
  { m_modified := false, m_err_code := 0, m_ini_file := "/home/u/.avim/config.ini",
    m_pt := { node := fun path => entries.lookup path } }

/-- A concrete set of collaborators: application directory `/home/u/.avim`, which can be
created when absent, a configuration file holding `entries`, a login dialog ending as
`dlg`, and a main loop returning 7. -/
def Env.sample (entries : List (String × String)) (dlg : login_dialog) : Env :=
  { get_app_dir := "/home/u/.avim",
    create_directories := fun fsys dir =>
      .ok { stat := fun p => if p == dir then .found else fsys.stat p },
    ini_new := fun fsys _ => (ini.of_list entries, fsys),
    login_dialog_new := fun _ => dlg,
    QApplication_exec := 7 }

/-- The collaborators of `Env.sample` on a read-only home directory: creating the
application directory fails. -/
def Env.sample_read_only (entries : List (String × String)) (dlg : login_dialog) : Env :=
  { Env.sample entries dlg with
    create_directories := fun _ _ => .filesystem_error "Read-only file system" }

/-- A dialog the user cancels. -/
def dlg_cancelled : login_dialog :=
  { exec := 0, get_key_path := "", get_cert_path := "" }

/-- A configuration with auto-login on and both credential paths set. -/
def cfg_auto : List (String × String) :=
  [("global.auto_login", "true"), ("global.key", "/k"), ("global.cert", "/c")]

/-- A configuration with auto-login off. -/
def cfg_manual : List (String × String) :=
  [("global.auto_login", "false"), ("global.key", "/k"), ("global.cert", "/c")]

/-- A filesystem with the application directory and the files `/k` and `/c`. -/
def fs_creds : FileSystem :=
  FileSystem.of_list ["/home/u/.avim", "/k", "/c"]

/-- A filesystem with the application directory and both default credential files. -/
def fs_defaults : FileSystem :=
  FileSystem.of_list ["/home/u/.avim", "/home/u/.avim/user.key", "/home/u/.avim/user.cert"]

/-- A closure that throws when invoked. -/
def task_boom : Task (List String) :=
  { name := "boom", body := fun ui => .thrown "boom" ui }

/-- A main thread on which nothing has run yet. -/
def main_idle : MainThread (List String) :=
  { calls := [], ui := [] }

/-! ## Shared lemmas -/

theorem fs_exists_empty (fsys : FileSystem) : fs_exists fsys "" = fs_result.ok false := by
  have h : "".isEmpty = true := by decide
  simp [fs_exists, h]

theorem isEmpty_eq_false_of_fs_exists {fsys : FileSystem} {p : String}
    (h : fs_exists fsys p = fs_result.ok true) : p.isEmpty = false := by
  cases hp : p.isEmpty
  · rfl
  · simp [fs_exists, hp] at h

/-- The three ways `load_key_and_cert` can end, by the results of the existence checks it
makes, in order, on the resolved key path and on the certificate path: both exist and it
returns true with the client built; the first path checked that does not exist makes it
return false; the first check that fails makes it throw. -/
theorem load_key_and_cert_cases (env : Env) (self : avimApp) (cur_key cur_cert : String) :
    (fs_exists self.fsys (resolved_key env cur_key cur_cert) = fs_result.ok true ∧
      fs_exists self.fsys cur_cert = fs_result.ok true ∧
      self.load_key_and_cert env cur_key cur_cert =
        Run.returned true { self with
          m_avim_client := some { key := resolved_key env cur_key cur_cert,
                                  cert := resolved_key env cur_key cur_cert },
          trace := self.trace ++ [Event.load_key_and_cert cur_key cur_cert,
            Event.qDebug ("cert: " ++ cur_cert),
            Event.qDebug ("key: " ++ resolved_key env cur_key cur_cert),
            Event.avim_client_new (resolved_key env cur_key cur_cert)
              (resolved_key env cur_key cur_cert)] }) ∨
    ((fs_exists self.fsys (resolved_key env cur_key cur_cert) = fs_result.ok false ∨
        (fs_exists self.fsys (resolved_key env cur_key cur_cert) = fs_result.ok true ∧
          fs_exists self.fsys cur_cert = fs_result.ok false)) ∧
      self.load_key_and_cert env cur_key cur_cert =
        Run.returned false { self with
          trace := self.trace ++ [Event.load_key_and_cert cur_key cur_cert,
            Event.cout (resolved_key env cur_key cur_cert ++ "\n"),
            Event.cout (cur_cert ++ "\n"),
            Event.cout "omg, key and cert not exist"] }) ∨
    (∃ what : String,
      (fs_exists self.fsys (resolved_key env cur_key cur_cert) =
          fs_result.filesystem_error what ∨
        (fs_exists self.fsys (resolved_key env cur_key cur_cert) = fs_result.ok true ∧
          fs_exists self.fsys cur_cert = fs_result.filesystem_error what)) ∧
      self.load_key_and_cert env cur_key cur_cert =
        Run.thrown what { self with
          trace := self.trace ++ [Event.load_key_and_cert cur_key cur_cert] }) := by
  have hrk : (if cur_cert.isEmpty = true then path_append env.get_app_dir "user.cert"
      else if cur_key.isEmpty = true then path_append env.get_app_dir "user.key"
      else cur_key) = resolved_key env cur_key cur_cert := rfl
  have hunfold : self.load_key_and_cert env cur_key cur_cert =
      (match (match fs_exists self.fsys (resolved_key env cur_key cur_cert) with
          | .filesystem_error what => fs_result.filesystem_error what
          | .ok false => fs_result.ok true
          | .ok true =>
            match fs_exists self.fsys cur_cert with
            | .filesystem_error what => fs_result.filesystem_error what
            | .ok found => fs_result.ok (!found)) with
        | .filesystem_error what =>
          Run.thrown what (self.record (.load_key_and_cert cur_key cur_cert))
        | .ok true =>
          Run.returned false ((((self.record (.load_key_and_cert cur_key cur_cert)).record
            (.cout (resolved_key env cur_key cur_cert ++ "\n"))).record
            (.cout (cur_cert ++ "\n"))).record (.cout "omg, key and cert not exist"))
        | .ok false =>
          Run.returned true { (((self.record (.load_key_and_cert cur_key cur_cert)).record
            (.qDebug ("cert: " ++ cur_cert))).record
            (.qDebug ("key: " ++ resolved_key env cur_key cur_cert))).record
            (.avim_client_new (resolved_key env cur_key cur_cert)
              (resolved_key env cur_key cur_cert)) with
            m_avim_client := some { key := resolved_key env cur_key cur_cert,
                                    cert := resolved_key env cur_key cur_cert } }) := by
    rw [← hrk]
    cases hc : cur_cert.isEmpty <;> cases hk : cur_key.isEmpty <;>
      simp [avimApp.load_key_and_cert, avimApp.record, hc, hk]
  rw [hunfold]
  rcases hkey : fs_exists self.fsys (resolved_key env cur_key cur_cert) with (_ | _) | what
  · right; left
    simp [avimApp.record]
  · rcases hcert : fs_exists self.fsys cur_cert with (_ | _) | what
    · right; left
      simp [avimApp.record]
    · left
      simp [avimApp.record]
    · right; right
      exact ⟨what, by simp [avimApp.record]⟩
  · right; right
    exact ⟨what, by simp [avimApp.record]⟩

/-- What `load_cfg` leaves behind when it returns on a fresh application object: the store
is set, no client, dialog or main window exists, and only directory creation and the
construction of the store have been recorded. -/
theorem load_cfg_returned (env : Env) (fsys : FileSystem) (b : avimApp)
    (hload : (avimApp.fresh fsys).load_cfg env = Run.returned () b) :
    (∃ cfg, b.m_cfg = some cfg) ∧
    b.m_avim_client = none ∧
    b.m_login_dialog = none ∧
    b.m_mainwindow = false ∧
    ∀ e ∈ b.trace,
      e = Event.create_directories env.get_app_dir ∨
      e = Event.ini_new (path_append env.get_app_dir "config.ini") := by
  simp only [avimApp.load_cfg, avimApp.record, avimApp.fresh] at hload
  rcases hdir : fs_exists fsys env.get_app_dir with (_ | _) | what
  · simp only [hdir] at hload
    rcases hmk : env.create_directories fsys env.get_app_dir with created | what
    · simp only [hmk, Run.returned.injEq, true_and] at hload
      subst hload
      simp
    · simp [hmk] at hload
  · simp only [hdir, Run.returned.injEq, true_and] at hload
    subst hload
    simp
  · simp [hdir] at hload

/-- The body of `exec` once `load_cfg` has returned with the store `m_cfg`, when auto-login
is off. -/
theorem exec_manual (env : Env) (self b : avimApp) (m_cfg : ini)
    (hload : self.load_cfg env = Run.returned () b) (hcfg : b.m_cfg = some m_cfg)
    (hauto : (m_cfg.get "global.auto_login" : String) ≠ "true") :
    self.exec env = some (b.exec_login env m_cfg) := by
  simp [avimApp.exec, hload, hcfg, hauto]

/-- The body of `exec` once `load_cfg` has returned with the store `m_cfg`, when auto-login
is on. -/
theorem exec_auto (env : Env) (self b : avimApp) (m_cfg : ini)
    (hload : self.load_cfg env = Run.returned () b) (hcfg : b.m_cfg = some m_cfg)
    (hauto : (m_cfg.get "global.auto_login" : String) = "true") :
    self.exec env = some
      (match b.load_key_and_cert env (m_cfg.get "global.key") (m_cfg.get "global.cert") with
        | .thrown what s => Run.thrown what s
        | .returned true s => s.start_main env
        | .returned false s => s.exec_login env m_cfg) := by
  simp only [avimApp.exec, hload, hcfg, hauto, beq_self_eq_true, if_true]
  rcases b.load_key_and_cert env (m_cfg.get "global.key") (m_cfg.get "global.cert")
    with ⟨_ | _, s⟩ | ⟨what, s⟩ <;> rfl

/-- The four ways the login-dialog block can end: the dialog is not accepted (0); it is
accepted and validation of the chosen paths fails (1); it is accepted, validation
succeeds and the main loop runs; it is accepted and an existence check throws. -/
theorem exec_login_cases (env : Env) (b : avimApp) (m_cfg : ini) :
    ((env.login_dialog_new m_cfg).exec ≠ QDialog_Accepted ∧
      b.exec_login env m_cfg =
        Run.returned 0 { b with
          m_login_dialog := some (env.login_dialog_new m_cfg),
          trace := b.trace ++ [Event.login_dialog_new, Event.login_dialog_exec] }) ∨
    ((env.login_dialog_new m_cfg).exec = QDialog_Accepted ∧
      (fs_exists b.fsys (resolved_key env (env.login_dialog_new m_cfg).get_key_path
          (env.login_dialog_new m_cfg).get_cert_path) = fs_result.ok false ∨
        (fs_exists b.fsys (resolved_key env (env.login_dialog_new m_cfg).get_key_path
            (env.login_dialog_new m_cfg).get_cert_path) = fs_result.ok true ∧
          fs_exists b.fsys (env.login_dialog_new m_cfg).get_cert_path = fs_result.ok false)) ∧
      b.exec_login env m_cfg =
        Run.returned 1 { b with
          m_login_dialog := some (env.login_dialog_new m_cfg),
          trace := b.trace ++ [Event.login_dialog_new, Event.login_dialog_exec,
            Event.load_key_and_cert (env.login_dialog_new m_cfg).get_key_path
              (env.login_dialog_new m_cfg).get_cert_path,
            Event.cout (resolved_key env (env.login_dialog_new m_cfg).get_key_path
              (env.login_dialog_new m_cfg).get_cert_path ++ "\n"),
            Event.cout ((env.login_dialog_new m_cfg).get_cert_path ++ "\n"),
            Event.cout "omg, key and cert not exist"] }) ∨
    ((env.login_dialog_new m_cfg).exec = QDialog_Accepted ∧
      fs_exists b.fsys (resolved_key env (env.login_dialog_new m_cfg).get_key_path
          (env.login_dialog_new m_cfg).get_cert_path) = fs_result.ok true ∧
      fs_exists b.fsys (env.login_dialog_new m_cfg).get_cert_path = fs_result.ok true ∧
      b.exec_login env m_cfg =
        Run.returned env.QApplication_exec { b with
          m_avim_client := some
            { key := resolved_key env (env.login_dialog_new m_cfg).get_key_path
                (env.login_dialog_new m_cfg).get_cert_path,
              cert := resolved_key env (env.login_dialog_new m_cfg).get_key_path
                (env.login_dialog_new m_cfg).get_cert_path },
          m_login_dialog := none,
          m_mainwindow := true,
          trace := b.trace ++ [Event.login_dialog_new, Event.login_dialog_exec,
            Event.load_key_and_cert (env.login_dialog_new m_cfg).get_key_path
              (env.login_dialog_new m_cfg).get_cert_path,
            Event.qDebug ("cert: " ++ (env.login_dialog_new m_cfg).get_cert_path),
            Event.qDebug ("key: " ++ resolved_key env (env.login_dialog_new m_cfg).get_key_path
              (env.login_dialog_new m_cfg).get_cert_path),
            Event.avim_client_new
              (resolved_key env (env.login_dialog_new m_cfg).get_key_path
                (env.login_dialog_new m_cfg).get_cert_path)
              (resolved_key env (env.login_dialog_new m_cfg).get_key_path
                (env.login_dialog_new m_cfg).get_cert_path),
            Event.login_dialog_reset, Event.MainWindow_new, Event.MainWindow_show,
            Event.QApplication_exec] }) ∨
    ((env.login_dialog_new m_cfg).exec = QDialog_Accepted ∧
      ∃ what : String,
        (fs_exists b.fsys (resolved_key env (env.login_dialog_new m_cfg).get_key_path
            (env.login_dialog_new m_cfg).get_cert_path) = fs_result.filesystem_error what ∨
          (fs_exists b.fsys (resolved_key env (env.login_dialog_new m_cfg).get_key_path
              (env.login_dialog_new m_cfg).get_cert_path) = fs_result.ok true ∧
            fs_exists b.fsys (env.login_dialog_new m_cfg).get_cert_path =
              fs_result.filesystem_error what)) ∧
        b.exec_login env m_cfg =
          Run.thrown what { b with
            m_login_dialog := some (env.login_dialog_new m_cfg),
            trace := b.trace ++ [Event.login_dialog_new, Event.login_dialog_exec,
              Event.load_key_and_cert (env.login_dialog_new m_cfg).get_key_path
                (env.login_dialog_new m_cfg).get_cert_path] }) := by
  by_cases hacc : (env.login_dialog_new m_cfg).exec = QDialog_Accepted
  · right
    rcases load_key_and_cert_cases env
      ({ b with m_login_dialog := some (env.login_dialog_new m_cfg),
                trace := b.trace ++ [Event.login_dialog_new, Event.login_dialog_exec] })
      (env.login_dialog_new m_cfg).get_key_path (env.login_dialog_new m_cfg).get_cert_path
      with ⟨hk, hc, heq⟩ | ⟨hmiss, heq⟩ | ⟨what, hfail, heq⟩
    · right; left
      refine ⟨hacc, hk, hc, ?_⟩
      simp [avimApp.exec_login, avimApp.record, hacc, heq, avimApp.start_main]
    · left
      refine ⟨hacc, hmiss, ?_⟩
      simp [avimApp.exec_login, avimApp.record, hacc, heq]
    · right; right
      refine ⟨hacc, what, hfail, ?_⟩
      simp [avimApp.exec_login, avimApp.record, hacc, heq]
  · left
    refine ⟨hacc, ?_⟩
    simp [avimApp.exec_login, avimApp.record, hacc]

/-- However it ends, `load_key_and_cert` leaves the filesystem, the dialog and the main
window alone; unless it returns true it leaves the client alone; and it records its own
call followed only by output and, on success, the construction of the client. -/
theorem load_key_and_cert_frame (env : Env) (b : avimApp) (cur_key cur_cert : String) :
    (b.load_key_and_cert env cur_key cur_cert).app.fsys = b.fsys ∧
    (b.load_key_and_cert env cur_key cur_cert).app.m_mainwindow = b.m_mainwindow ∧
    (b.load_key_and_cert env cur_key cur_cert).app.m_login_dialog = b.m_login_dialog ∧
    ((b.load_key_and_cert env cur_key cur_cert).value? ≠ some true →
      (b.load_key_and_cert env cur_key cur_cert).app.m_avim_client = b.m_avim_client) ∧
    ∃ out : List Event,
      (b.load_key_and_cert env cur_key cur_cert).app.trace =
        b.trace ++ Event.load_key_and_cert cur_key cur_cert :: out ∧
      ∀ e ∈ out, (∃ text, e = Event.cout text) ∨ (∃ text, e = Event.qDebug text) ∨
        (∃ key cert, e = Event.avim_client_new key cert) := by
  rcases load_key_and_cert_cases env b cur_key cur_cert
    with ⟨-, -, heq⟩ | ⟨-, heq⟩ | ⟨what, -, heq⟩ <;>
    simp [heq, Run.app, Run.value?]

/-- The login-dialog block always builds and runs the dialog first. -/
theorem exec_login_trace (env : Env) (b : avimApp) (m_cfg : ini) :
    ∃ post : List Event,
      (b.exec_login env m_cfg).app.trace =
        b.trace ++ Event.login_dialog_new :: Event.login_dialog_exec :: post := by
  rcases exec_login_cases env b m_cfg
    with ⟨-, heq⟩ | ⟨-, -, heq⟩ | ⟨-, -, -, heq⟩ | ⟨-, what, -, heq⟩ <;>
    simp [heq, Run.app]

/-- The login-dialog block when the dialog is not accepted. -/
theorem exec_login_cancelled (env : Env) (b : avimApp) (m_cfg : ini)
    (hcancel : (env.login_dialog_new m_cfg).exec ≠ QDialog_Accepted) :
    b.exec_login env m_cfg =
      Run.returned 0 { b with
        m_login_dialog := some (env.login_dialog_new m_cfg),
        trace := b.trace ++ [Event.login_dialog_new, Event.login_dialog_exec] } := by
  rcases exec_login_cases env b m_cfg
    with ⟨-, heq⟩ | ⟨hacc, -⟩ | ⟨hacc, -⟩ | ⟨hacc, -⟩
  · exact heq
  · exact absurd hacc hcancel
  · exact absurd hacc hcancel
  · exact absurd hacc hcancel

/-- Claim C2 (default credential fallback), evaluated on the code: with both paths empty
the second defaulting branch stores `<app dir>/user.cert` in `cur_key` and `cur_cert` stays
empty, so in every filesystem `load_key_and_cert("", "")` never returns true and builds no
client, and it returns false whenever the check of `<app dir>/user.cert` does not throw; in
particular it returns false on a filesystem where `<app dir>/user.key` and
`<app dir>/user.cert` both exist, printing `user.cert` as the key and an empty
certificate path. -/
theorem load_key_and_cert_defaults_rejected :
    (∀ (env : Env) (self : avimApp),
      (self.load_key_and_cert env "" "").value? ≠ some true ∧
      (self.load_key_and_cert env "" "").app.m_avim_client = self.m_avim_client ∧
      ((∀ what, fs_exists self.fsys (path_append env.get_app_dir "user.cert") ≠
          fs_result.filesystem_error what) →
        (self.load_key_and_cert env "" "").value? = some false)) ∧
    fs_exists fs_defaults (path_append "/home/u/.avim" "user.key") = fs_result.ok true ∧
    fs_exists fs_defaults (path_append "/home/u/.avim" "user.cert") = fs_result.ok true ∧
    ((avimApp.fresh fs_defaults).load_key_and_cert (Env.sample [] dlg_cancelled) "" "").value?
      = some false ∧
    ((avimApp.fresh fs_defaults).load_key_and_cert (Env.sample [] dlg_cancelled) "" "").app.trace
      = [Event.load_key_and_cert "" "", Event.cout "/home/u/.avim/user.cert\n",
         Event.cout "\n", Event.cout "omg, key and cert not exist"] := by
  refine ⟨fun env self => ?_, by decide, by decide, by decide, by decide⟩
  have hrk : resolved_key env "" "" = path_append env.get_app_dir "user.cert" := by
    have h : "".isEmpty = true := by decide
    simp [resolved_key, h]
  rcases load_key_and_cert_cases env self "" ""
    with ⟨-, hc, -⟩ | ⟨-, heq⟩ | ⟨what, hfail, heq⟩
  · rw [fs_exists_empty] at hc
    cases hc
  · simp [heq, Run.value?, Run.app]
  · refine ⟨by simp [heq, Run.value?], by simp [heq, Run.app], fun hno => ?_⟩
    rcases hfail with hk | ⟨-, hc⟩
    · rw [hrk] at hk
      exact absurd hk (hno what)
    · rw [fs_exists_empty] at hc
      cases hc

/-- Claim C10 (credentials handed to the client), evaluated on the code: whenever
`load_key_and_cert` returns true the client is constructed with the checked key path as its
key argument and the same key path again as its certificate argument; for the existing
files `/k` and `/c` the client receives `("/k", "/k")`, not `("/k", "/c")`. -/
theorem load_key_and_cert_client_gets_key_twice :
    (∀ (env : Env) (self : avimApp) (cur_key cur_cert : String),
      (self.load_key_and_cert env cur_key cur_cert).value? = some true →
      (self.load_key_and_cert env cur_key cur_cert).app.m_avim_client =
        some { key := resolved_key env cur_key cur_cert,
               cert := resolved_key env cur_key cur_cert }) ∧
    resolved_key (Env.sample cfg_auto dlg_cancelled) "/k" "/c" = "/k" ∧
    ((avimApp.fresh fs_creds).load_key_and_cert (Env.sample cfg_auto dlg_cancelled)
      "/k" "/c").value? = some true ∧
    ((avimApp.fresh fs_creds).load_key_and_cert (Env.sample cfg_auto dlg_cancelled)
      "/k" "/c").app.m_avim_client = some { key := "/k", cert := "/k" } ∧
    ((avimApp.fresh fs_creds).load_key_and_cert (Env.sample cfg_auto dlg_cancelled)
      "/k" "/c").app.m_avim_client ≠ some { key := "/k", cert := "/c" } := by
  refine ⟨fun env self cur_key cur_cert hok => ?_, by decide, by decide, by decide, by decide⟩
  rcases load_key_and_cert_cases env self cur_key cur_cert
    with ⟨-, -, heq⟩ | ⟨-, heq⟩ | ⟨what, -, heq⟩
  · simp [heq, Run.app]
  · simp [heq, Run.value?] at hok
  · simp [heq, Run.value?] at hok

/-- Claim C7 (ConfigStore default on miss), evaluated on the code: on a store read
without error, `get<std::string>` of a path absent from the tree returns the text of the
caught exception, `No such node (<path>)`, which is not the default-constructed (empty)
string. -/
theorem ini_get_absent_returns_error_text (self : ini) (path : String)
    (herr : self.m_err_code = 0) (habsent : self.m_pt.node path = none) :
    (self.get path : String) = "No such node (" ++ path ++ ")" ∧
    (self.get path : String) ≠ (value_type.ctor : String) := by
  have hget : (self.get path : String) = "No such node (" ++ path ++ ")" := by
    simp [ini.get, ptree.get, herr, habsent, ptree_error.what, value_type.of_what]
  refine ⟨hget, ?_⟩
  rw [hget]
  intro h
  have hlen := congrArg String.length h
  simp [value_type.ctor] at hlen
  exact absurd hlen.1.1 (by decide)

/-- C7, instance: on a store read without error whose tree is empty,
`get<std::string>("global.key")` is the text `No such node (global.key)`. -/
theorem ini_get_absent_returns_error_text_witness :
    ((ini.of_list []).m_err_code = 0 ∧ (ini.of_list []).m_pt.node "global.key" = none) ∧
    ((ini.of_list []).get "global.key" : String) = "No such node (global.key)" ∧
    ((ini.of_list []).get "global.key" : String) ≠ "" :=
  ⟨⟨by decide, by decide⟩,
    ini_get_absent_returns_error_text (ini.of_list []) "global.key" (by decide) (by decide)⟩

/-- Claim C3 (Scenario B): when `load_cfg` has loaded a configuration whose
`global.auto_login` reads "true" and the files named by `global.key` and `global.cert`
both exist in the filesystem `exec` checks, `exec` returns the value of the main loop,
with the main window constructed and the main loop as the last event of the run, and the
login dialog is neither constructed nor run. -/
theorem exec_auto_login_skips_dialog (env : Env) (fsys : FileSystem) (b : avimApp)
    (m_cfg : ini)
    (hload : (avimApp.fresh fsys).load_cfg env = Run.returned () b)
    (hcfg : b.m_cfg = some m_cfg)
    (hauto : (m_cfg.get "global.auto_login" : String) = "true")
    (hkey : fs_exists b.fsys (m_cfg.get "global.key") = fs_result.ok true)
    (hcert : fs_exists b.fsys (m_cfg.get "global.cert") = fs_result.ok true) :
    ∃ fin : avimApp,
      (avimApp.fresh fsys).exec env = some (Run.returned env.QApplication_exec fin) ∧
      fin.m_mainwindow = true ∧
      Event.MainWindow_new ∈ fin.trace ∧
      fin.trace.getLast? = some Event.QApplication_exec ∧
      fin.m_login_dialog = none ∧
      Event.login_dialog_new ∉ fin.trace ∧
      Event.login_dialog_exec ∉ fin.trace := by
  obtain ⟨-, -, hdlg, -, htr⟩ := load_cfg_returned env fsys b hload
  rw [exec_auto env _ b m_cfg hload hcfg hauto]
  have hn1 : Event.login_dialog_new ∉ b.trace := fun h => by
    rcases htr _ h with h | h <;> cases h
  have hn2 : Event.login_dialog_exec ∉ b.trace := fun h => by
    rcases htr _ h with h | h <;> cases h
  have hres : resolved_key env (m_cfg.get "global.key") (m_cfg.get "global.cert") =
      m_cfg.get "global.key" := by
    simp [resolved_key, isEmpty_eq_false_of_fs_exists hkey, isEmpty_eq_false_of_fs_exists hcert]
  rcases load_key_and_cert_cases env b (m_cfg.get "global.key") (m_cfg.get "global.cert")
    with ⟨-, -, heq⟩ | ⟨hmiss, -⟩ | ⟨what, hfail, -⟩
  · simp [heq, avimApp.start_main, avimApp.record, hdlg, hn1, hn2]
  · rw [hres, hkey, hcert] at hmiss
    simp at hmiss
  · rw [hres, hkey, hcert] at hfail
    simp at hfail

/-- Claim C3 on a concrete run: auto-login on, `/k` and `/c` on disk; `exec` returns the
main loop value 7 without a dialog event. -/
theorem exec_auto_login_skips_dialog_witness :
    (((avimApp.fresh fs_creds).load_cfg (Env.sample cfg_auto dlg_cancelled)).value?
        = some () ∧
      ((ini.of_list cfg_auto).get "global.auto_login" : String) = "true" ∧
      fs_exists fs_creds ((ini.of_list cfg_auto).get "global.key") = fs_result.ok true ∧
      fs_exists fs_creds ((ini.of_list cfg_auto).get "global.cert") = fs_result.ok true) ∧
    ∃ fin : avimApp,
      (avimApp.fresh fs_creds).exec (Env.sample cfg_auto dlg_cancelled) =
        some (Run.returned 7 fin) ∧
      fin.m_mainwindow = true ∧
      Event.MainWindow_new ∈ fin.trace ∧
      fin.trace.getLast? = some Event.QApplication_exec ∧
      fin.m_login_dialog = none ∧
      Event.login_dialog_new ∉ fin.trace ∧
      Event.login_dialog_exec ∉ fin.trace :=
  ⟨⟨by decide, by decide, by decide, by decide⟩,
    exec_auto_login_skips_dialog (Env.sample cfg_auto dlg_cancelled) fs_creds _
      (ini.of_list cfg_auto) rfl rfl (by decide) (by decide) (by decide)⟩

/-- Claim C4 (Scenario C) fails as stated: on a filesystem where the application
directory is absent and cannot be created, so that the configuration holds no
`global.auto_login` and its value does not read "true", `fs::create_directories` throws
inside `load_cfg` and the exception leaves `exec` before the login dialog is constructed
or run. -/
theorem exec_aborts_before_dialog_when_app_dir_cannot_be_created :
    ((((Env.sample_read_only [] dlg_cancelled).ini_new (FileSystem.of_list [])
        "/home/u/.avim/config.ini").1.get "global.auto_login" : String) ≠ "true") ∧
    ((avimApp.fresh (FileSystem.of_list [])).exec
        (Env.sample_read_only [] dlg_cancelled)).map
      (fun r => (r.value?, r.app.trace)) =
        some (none, [Event.create_directories "/home/u/.avim"]) ∧
    ¬ ∃ r, (avimApp.fresh (FileSystem.of_list [])).exec
        (Env.sample_read_only [] dlg_cancelled) = some r ∧
      Event.login_dialog_exec ∈ r.app.trace := by
  refine ⟨by decide, by decide, ?_⟩
  rintro ⟨r, hr, hmem⟩
  have htrace : ((avimApp.fresh (FileSystem.of_list [])).exec
      (Env.sample_read_only [] dlg_cancelled)).map (fun r => r.app.trace) =
      some [Event.create_directories "/home/u/.avim"] := by decide
  rw [hr] at htrace
  simp only [Option.map_some', Option.some.injEq] at htrace
  rw [htrace] at hmem
  simp at hmem

/-- Claim C4, amended: whenever `load_cfg` returns (the checks on the application
directory raise no filesystem error) with a configuration whose `global.auto_login` does
not read "true", then in every filesystem and with every dialog outcome the run of `exec`
constructs and runs the login dialog, and no call of `load_key_and_cert` precedes the
running of the dialog; whether the credential files exist has no influence on it. -/
theorem exec_without_auto_login_prompts_first (env : Env) (fsys : FileSystem) (b : avimApp)
    (m_cfg : ini)
    (hload : (avimApp.fresh fsys).load_cfg env = Run.returned () b)
    (hcfg : b.m_cfg = some m_cfg)
    (hauto : (m_cfg.get "global.auto_login" : String) ≠ "true") :
    ∃ (r : Run Int) (pre post : List Event),
      (avimApp.fresh fsys).exec env = some r ∧
      r.app.trace = pre ++ Event.login_dialog_exec :: post ∧
      Event.login_dialog_new ∈ pre ∧
      ∀ cur_key cur_cert, Event.load_key_and_cert cur_key cur_cert ∉ pre := by
  obtain ⟨-, -, -, -, htr⟩ := load_cfg_returned env fsys b hload
  rw [exec_manual env _ b m_cfg hload hcfg hauto]
  obtain ⟨post, hpost⟩ := exec_login_trace env b m_cfg
  refine ⟨b.exec_login env m_cfg, b.trace ++ [Event.login_dialog_new], post, rfl, ?_, ?_, ?_⟩
  · simp [hpost]
  · simp
  · intro cur_key cur_cert hmem
    rcases List.mem_append.1 hmem with h | h
    · rcases htr _ h with h | h <;> cases h
    · simp at h

/-- Claim C4, amended, on a concrete run: auto-login off with both credential files on
disk; the dialog is still shown, straight after the configuration is loaded. -/
theorem exec_without_auto_login_prompts_first_witness :
    (((avimApp.fresh fs_creds).load_cfg (Env.sample cfg_manual dlg_cancelled)).value?
        = some () ∧
      ((ini.of_list cfg_manual).get "global.auto_login" : String) ≠ "true") ∧
    (∃ (r : Run Int) (pre post : List Event),
      (avimApp.fresh fs_creds).exec (Env.sample cfg_manual dlg_cancelled) = some r ∧
      r.app.trace = pre ++ Event.login_dialog_exec :: post ∧
      Event.login_dialog_new ∈ pre ∧
      ∀ cur_key cur_cert, Event.load_key_and_cert cur_key cur_cert ∉ pre) ∧
    ((avimApp.fresh fs_creds).exec (Env.sample cfg_manual dlg_cancelled)).map
      (fun r => r.app.trace) =
      some [Event.ini_new "/home/u/.avim/config.ini", Event.login_dialog_new,
        Event.login_dialog_exec] :=
  ⟨⟨by decide, by decide⟩,
    exec_without_auto_login_prompts_first (Env.sample cfg_manual dlg_cancelled) fs_creds _
      (ini.of_list cfg_manual) rfl rfl (by decide),
    by decide⟩

/-- Claim C5 (Scenario D): when the dialog's `exec()` is anything other than `Accepted`,
every run of `exec` that shows the dialog (auto-login off, or auto-login on with a failed
credential check) returns 0; running the dialog is the last event of the run, so no
credential validation follows it, no client exists, and the main window is never
constructed nor the main loop entered. -/
theorem exec_dialog_cancelled_returns_zero (env : Env) (fsys : FileSystem) (b : avimApp)
    (m_cfg : ini)
    (hload : (avimApp.fresh fsys).load_cfg env = Run.returned () b)
    (hcfg : b.m_cfg = some m_cfg)
    (hcancel : (env.login_dialog_new m_cfg).exec ≠ QDialog_Accepted) :
    ∃ r : Run Int,
      (avimApp.fresh fsys).exec env = some r ∧
      (Event.login_dialog_exec ∈ r.app.trace →
        r.value? = some 0 ∧
        (∃ pre, r.app.trace = pre ++ [Event.login_dialog_exec] ∧
          Event.login_dialog_exec ∉ pre) ∧
        r.app.m_avim_client = none ∧
        r.app.m_mainwindow = false ∧
        Event.MainWindow_new ∉ r.app.trace ∧
        Event.QApplication_exec ∉ r.app.trace) := by
  obtain ⟨-, hcl, -, hmw, htr⟩ := load_cfg_returned env fsys b hload
  have hn0 : Event.login_dialog_exec ∉ b.trace := fun h => by
    rcases htr _ h with h | h <;> cases h
  have hn1 : Event.MainWindow_new ∉ b.trace := fun h => by
    rcases htr _ h with h | h <;> cases h
  have hn2 : Event.QApplication_exec ∉ b.trace := fun h => by
    rcases htr _ h with h | h <;> cases h
  by_cases hauto : (m_cfg.get "global.auto_login" : String) = "true"
  · rw [exec_auto env _ b m_cfg hload hcfg hauto]
    rcases load_key_and_cert_cases env b (m_cfg.get "global.key") (m_cfg.get "global.cert")
      with ⟨-, -, heq⟩ | ⟨-, heq⟩ | ⟨what, -, heq⟩
    · refine ⟨_, rfl, fun hshown => ?_⟩
      exfalso
      simp [heq, avimApp.start_main, avimApp.record, Run.app, hn0] at hshown
    · refine ⟨_, rfl, fun _ => ?_⟩
      simp only [heq]
      rw [exec_login_cancelled env _ m_cfg hcancel]
      refine ⟨rfl, ⟨b.trace ++ [Event.load_key_and_cert (m_cfg.get "global.key")
          (m_cfg.get "global.cert"),
          Event.cout (resolved_key env (m_cfg.get "global.key") (m_cfg.get "global.cert")
            ++ "\n"),
          Event.cout ((m_cfg.get "global.cert" : String) ++ "\n"),
          Event.cout "omg, key and cert not exist", Event.login_dialog_new], ?_, ?_⟩,
        ?_, ?_, ?_, ?_⟩
      · simp [Run.app]
      · simp [hn0]
      · simp [Run.app, hcl]
      · simp [Run.app, hmw]
      · simp [Run.app, hn1]
      · simp [Run.app, hn2]
    · refine ⟨_, rfl, fun hshown => ?_⟩
      exfalso
      simp [heq, Run.app, hn0] at hshown
  · rw [exec_manual env _ b m_cfg hload hcfg hauto]
    refine ⟨_, rfl, fun _ => ?_⟩
    rw [exec_login_cancelled env _ m_cfg hcancel]
    refine ⟨rfl, ⟨b.trace ++ [Event.login_dialog_new], ?_, ?_⟩, ?_, ?_, ?_, ?_⟩
    · simp [Run.app]
    · simp [hn0]
    · simp [Run.app, hcl]
    · simp [Run.app, hmw]
    · simp [Run.app, hn1]
    · simp [Run.app, hn2]

/-- Claim C5 on a concrete run: auto-login on with no credential file on disk, so the
check fails, the dialog is shown and cancelled, and `exec` returns 0. -/
theorem exec_dialog_cancelled_returns_zero_witness :
    (((avimApp.fresh (FileSystem.of_list [])).load_cfg
          (Env.sample cfg_auto dlg_cancelled)).value? = some () ∧
      ((Env.sample cfg_auto dlg_cancelled).login_dialog_new (ini.of_list cfg_auto)).exec
        ≠ QDialog_Accepted) ∧
    (∃ r : Run Int,
      (avimApp.fresh (FileSystem.of_list [])).exec (Env.sample cfg_auto dlg_cancelled)
        = some r ∧
      (Event.login_dialog_exec ∈ r.app.trace →
        r.value? = some 0 ∧
        (∃ pre, r.app.trace = pre ++ [Event.login_dialog_exec] ∧
          Event.login_dialog_exec ∉ pre) ∧
        r.app.m_avim_client = none ∧
        r.app.m_mainwindow = false ∧
        Event.MainWindow_new ∉ r.app.trace ∧
        Event.QApplication_exec ∉ r.app.trace)) ∧
    ((avimApp.fresh (FileSystem.of_list [])).exec (Env.sample cfg_auto dlg_cancelled)).map
      (fun r => (r.value?, decide (Event.login_dialog_exec ∈ r.app.trace)))
        = some (some 0, true) :=
  ⟨⟨by decide, by decide⟩,
    exec_dialog_cancelled_returns_zero (Env.sample cfg_auto dlg_cancelled)
      (FileSystem.of_list []) _ (ini.of_list cfg_auto) rfl rfl (by decide),
    by decide⟩

/-- Claim C8 (task failure containment) fails as stated: for a task whose invocation
throws, `on_post` does not return normally. -/
theorem on_post_does_not_catch :
    task_boom.body main_idle.ui = Outcome.thrown "boom" [] ∧
    ¬ ∃ m : MainThread (List String),
        avimApp.on_post task_boom main_idle = Outcome.returned m := by
  refine ⟨rfl, ?_⟩
  rintro ⟨m, hm⟩
  simp [avimApp.on_post, Task.call, task_boom] at hm

/-- Claim C8, amended: `on_post` invokes the delivered task exactly once and ends the way
that invocation ends: it returns normally when the task returns, and when the task throws,
the same exception leaves `on_post`; in both cases the task has been invoked once and is not
invoked again. -/
theorem on_post_passes_outcome_through {σ : Type} (qfunc_ptr : Task σ) (m : MainThread σ) :
    (∀ u, qfunc_ptr.body m.ui = Outcome.returned u →
      avimApp.on_post qfunc_ptr m =
        Outcome.returned { calls := m.calls ++ [qfunc_ptr.name], ui := u }) ∧
    (∀ what u, qfunc_ptr.body m.ui = Outcome.thrown what u →
      avimApp.on_post qfunc_ptr m =
        Outcome.thrown what { calls := m.calls ++ [qfunc_ptr.name], ui := u }) := by
  constructor
  · intro u h
    simp [avimApp.on_post, Task.call, h]
  · intro what u h
    simp [avimApp.on_post, Task.call, h]

/-- Claim C8, amended, on a concrete task: the throwing task is invoked once and its
exception leaves `on_post`. -/
theorem on_post_passes_outcome_through_witness :
    task_boom.body main_idle.ui = Outcome.thrown "boom" [] ∧
    avimApp.on_post task_boom main_idle =
      Outcome.thrown "boom" { calls := ["boom"], ui := [] } :=
  ⟨rfl, (on_post_passes_outcome_through task_boom main_idle).2 "boom" [] rfl⟩

end Avim
